import Mathlib

/-
Shallow embedding of the plan-target resolution and evaluation engine
(src/endpoints/plan_targets: logic.py, repo.py, routes_eval.py, routes_set.py,
schemas.py, together with the PlanTargets model of src/database/models.py).

Conventions of the embedding:
* Python dates become a proleptic-Gregorian record Date; date ordering and
  date differences go through the ordinal toOrd, mirroring datetime.date.
* SQL tables become Lean lists of rows; SELECT ... LIMIT 1 without ORDER BY
  becomes List.find? (the unique partial indexes of plan_targets guarantee at
  most one candidate for the operator/department keyed lookups), and
  ORDER BY created_at DESC LIMIT 1 becomes a maximum-by-created_at selection.
* target_value is a Nat: the column carries CHECK target_value >= 0
  (ck_pt_nonneg) and the call counters carry the analogous checks.
* Python float arithmetic of logic.py.classify is embedded in ℚ
  (ratio = actual / t, thresholds 1.3 and 0.7 written 13/10 and 7/10).
* repo.py uses the globals t_operator_departments, func and Calls without
  ever bringing them into its module scope, so at runtime effective_daily_value
  raises NameError whenever tiers 1-2 miss and actual_for_range raises on
  every call. The executed behavior is modelled by Except-valued functions
  over PyNameError; the same bodies with those names resolved to their evident
  referents in sqlalchemy/database.models (what the routes and the spec
  intend, and what sibling modules do) are kept as the _fixedImports family.
-/

namespace PlanTarget

/-- Calendar date, mirroring Python datetime.date (proleptic Gregorian). -/
structure Date where
  y : Nat
  m : Nat
  d : Nat
deriving DecidableEq

/-- Gregorian leap-year rule, as used by datetime.date. -/
def isLeap (y : Nat) : Bool :=
  (y % 4 == 0 && y % 100 != 0) || y % 400 == 0

/-- Number of days of month m in year y. -/
def daysInMonth (y m : Nat) : Nat :=
  if m == 2 then (if isLeap y then 29 else 28)
  else if m == 4 || m == 6 || m == 9 || m == 11 then 30
  else 31

/-- Successor day, mirroring date + timedelta(days=1). -/
def nextDay (x : Date) : Date :=
  if x.d < daysInMonth x.y x.m then ⟨x.y, x.m, x.d + 1⟩
  else if x.m < 12 then ⟨x.y, x.m + 1, 1⟩
  else ⟨x.y + 1, 1, 1⟩

/-- Predecessor day, mirroring date - timedelta(days=1). -/
def prevDay (x : Date) : Date :=
  if 1 < x.d then ⟨x.y, x.m, x.d - 1⟩
  else if 1 < x.m then ⟨x.y, x.m - 1, daysInMonth x.y (x.m - 1)⟩
  else ⟨x.y - 1, 12, 31⟩

/-- date + timedelta(days=n). -/
def addDays (x : Date) : Nat → Date
  | 0 => x
  | n + 1 => nextDay (addDays x n)

/-- Days contributed by the months strictly before month m of year y. -/
def daysBeforeMonth (y m : Nat) : Nat :=
  ((List.range (m - 1)).map (fun i => daysInMonth y (i + 1))).sum

/-- Day ordinal, mirroring datetime.date.toordinal (0001-01-01 has ordinal 1);
used to embed SQL date comparisons and Python date subtraction. -/
def toOrd (x : Date) : Nat :=
  365 * (x.y - 1) + ((x.y - 1) / 4 - (x.y - 1) / 100) + (x.y - 1) / 400
    + daysBeforeMonth x.y x.m + x.d

/-- day.replace(day=1): the first day of the month of the given day. -/
def firstOfMonth (x : Date) : Date := ⟨x.y, x.m, 1⟩

/-- A row of the plan_targets table (src/database/models.py, class PlanTargets).
created_at and updated_at are timestamps (server_default now(); the column has
no onupdate clause and the repository defines no trigger for it). -/
structure TargetRow where
  id : Nat
  period_type : String
  target_mode : String
  metric : String
  period_date : Date
  target_value : Nat
  department_id : Option Nat
  operator_id : Option Nat
  created_by : Option Nat
  created_at : Nat
  updated_at : Nat
deriving DecidableEq

/-- The slice of a calls row used by actual_for_range_fixedImports: the operator, the date
part of call_start_date, the three summable counters (non-null, CHECK >= 0)
and the soft-delete marker. -/
structure CallRow where
  operator_id : Nat
  call_start_date : Date
  indicators_done : Nat
  penalty_sum : Nat
  stages_done : Nat
  deleted_at : Option Nat
deriving DecidableEq

/-- The database state visible to the plan_targets endpoints: operator ids,
department ids, the operator_departments m2m table, the plan_targets table,
the calls table, and the id sequence feeding plan_targets.id. -/
structure DB where
  operators : List Nat
  departments : List Nat
  operator_departments : List (Nat × Nat)
  plan_targets : List TargetRow
  calls : List CallRow
  next_id : Nat
deriving DecidableEq

/-- logic.py classify: direction-aware verdict of actual vs target.
Python float arithmetic is embedded in ℚ. -/
def classify (metric : String) (actual : Int) (target : Option Int) :
    String × Option ℚ :=
  match target with
  | none => ("no_target", none)
  | some t0 =>
    let tgt : Int := max t0 0
    if metric == "penalty_sum" then
      if tgt == 0 then ((if actual == 0 then "good" else "bad"), none)
      else
        let ratio : ℚ := (actual : ℚ) / (tgt : ℚ)
        if actual ≤ tgt then ("good", some ratio)
        else if (actual : ℚ) ≤ (tgt : ℚ) * (13 / 10) then ("average", some ratio)
        else ("bad", some ratio)
    else
      if tgt == 0 then ((if 0 < actual then "good" else "bad"), none)
      else
        let ratio : ℚ := (actual : ℚ) / (tgt : ℚ)
        if 1 ≤ ratio then ("good", some ratio)
        else if 7 / 10 ≤ ratio then ("average", some ratio)
        else ("bad", some ratio)

/-- Membership test against the operator_departments m2m table. -/
def memberDept (db : DB) (op dep : Nat) : Bool :=
  db.operator_departments.any (fun p => p.1 == op && p.2 == dep)

/-- Row filter of the first resolver tier (repo.py effective_daily_value_fixedImports, q1):
operator-scoped day/total row for the metric on the exact day. -/
def tier1Match (op : Nat) (day : Date) (metric : String) (r : TargetRow) : Bool :=
  r.operator_id == some op && r.department_id == none &&
  r.period_type == "day" && r.target_mode == "total" &&
  r.metric == metric && r.period_date == day

/-- Row filter of the second resolver tier (q2): operator-scoped
month/per_day row for the metric at the first of the month. -/
def tier2Match (op : Nat) (month1 : Date) (metric : String) (r : TargetRow) : Bool :=
  r.operator_id == some op && r.department_id == none &&
  r.period_type == "month" && r.target_mode == "per_day" &&
  r.metric == metric && r.period_date == month1

/-- Row filter of the third resolver tier (q3): department-scoped day/total
row of one of the operator's departments (join over operator_departments). -/
def tier3Match (db : DB) (op : Nat) (day : Date) (metric : String) (r : TargetRow) : Bool :=
  (match r.department_id with
   | some dep => memberDept db op dep
   | none => false) &&
  r.operator_id == none &&
  r.period_type == "day" && r.target_mode == "total" &&
  r.metric == metric && r.period_date == day

/-- Row filter of the fourth resolver tier (q4): department-scoped
month/per_day row of one of the operator's departments. -/
def tier4Match (db : DB) (op : Nat) (month1 : Date) (metric : String) (r : TargetRow) : Bool :=
  (match r.department_id with
   | some dep => memberDept db op dep
   | none => false) &&
  r.operator_id == none &&
  r.period_type == "month" && r.target_mode == "per_day" &&
  r.metric == metric && r.period_date == month1

/-- ORDER BY created_at DESC LIMIT 1 over a candidate list: a row whose
created_at is maximal (ties resolved deterministically to the earliest row). -/
def maxByCreated : List TargetRow → Option TargetRow
  | [] => none
  | r :: rs =>
    match maxByCreated rs with
    | none => some r
    | some b => if r.created_at < b.created_at then some b else some r

/-- The body of repo.py effective_daily_value as written, with its reference
to t_operator_departments resolved to database.models.t_operator_departments
(the object repo.py forgets to bring into scope; its sibling modules resolve
the same name from database.models): the effective daily target of an
operator for a metric on a day, probing the four tiers in order and
returning the first hit with its source label, or (none, none). This is the
behavior the routes and the repository evidently intend; the executed
behavior is effective_daily_value below. -/
def effective_daily_value_fixedImports (db : DB) (op : Nat) (day : Date) (metric : String) :
    Option Nat × Option String :=
  let month1 := firstOfMonth day
  match db.plan_targets.find? (tier1Match op day metric) with
  | some r => (some r.target_value, some "operator/day")
  | none =>
  match db.plan_targets.find? (tier2Match op month1 metric) with
  | some r => (some r.target_value, some "operator/month_per_day")
  | none =>
  match maxByCreated (db.plan_targets.filter (tier3Match db op day metric)) with
  | some r => (some r.target_value, some "dept/day")
  | none =>
  match maxByCreated (db.plan_targets.filter (tier4Match db op month1 metric)) with
  | some r => (some r.target_value, some "dept/month_per_day")
  | none => (none, none)

/-- Row filter of repo.py actual_for_range: calls of the operator whose date
part of call_start_date lies in [date_from, date_to], not soft-deleted. -/
def callInRange (op : Nat) (df dt : Date) (c : CallRow) : Bool :=
  c.operator_id == op &&
  decide (toOrd df ≤ toOrd c.call_start_date) &&
  decide (toOrd c.call_start_date ≤ toOrd dt) &&
  c.deleted_at == none

/-- The body of repo.py actual_for_range as written, with its references to
func and Calls resolved to sqlalchemy.func and database.models.Calls (the
objects repo.py forgets to bring into scope): sum of the named per-call
counter over the operator's non-deleted calls in the inclusive range (0 when
no row matches; any metric other than indicators_done and penalty_sum sums
stages_done). The executed behavior is actual_for_range below. -/
def actual_for_range_fixedImports (db : DB) (op : Nat) (df dt : Date) (metric : String) : Nat :=
  let rows := db.calls.filter (callInRange op df dt)
  if metric == "indicators_done" then (rows.map (fun c => c.indicators_done)).sum
  else if metric == "penalty_sum" then (rows.map (fun c => c.penalty_sum)).sum
  else (rows.map (fun c => c.stages_done)).sum

/-- Natural-key filter of repo.py upsert_month_target: month row with the
given target_mode, metric and first-of-month date, scoped to the operator
(department IS NULL) when operator_id is set, else to the department
(operator IS NULL); SQLAlchemy renders == None as IS NULL. -/
def monthUpsertMatch (target_mode metric : String) (month1 : Date)
    (department_id operator_id : Option Nat) (r : TargetRow) : Bool :=
  r.period_type == "month" && r.target_mode == target_mode &&
  r.metric == metric && r.period_date == month1 &&
  (match operator_id with
   | some o => r.operator_id == some o && r.department_id == none
   | none => r.department_id == department_id && r.operator_id == none)

/-- Natural-key filter of repo.py upsert_day_target: day/total row with the
given metric and day, scoped as in monthUpsertMatch. -/
def dayUpsertMatch (metric : String) (day : Date)
    (department_id operator_id : Option Nat) (r : TargetRow) : Bool :=
  r.period_type == "day" && r.target_mode == "total" &&
  r.metric == metric && r.period_date == day &&
  (match operator_id with
   | some o => r.operator_id == some o && r.department_id == none
   | none => r.department_id == department_id && r.operator_id == none)

/-- repo.py upsert_month_target: UPDATE target_value on the natural key;
if no row matched, INSERT a fresh row (created_at, updated_at and created_by
are set only here — the UPDATE branch touches only target_value, since the
updated_at column has no onupdate clause and no trigger). Returns the new
state and the id of the touched row; now is the transaction timestamp. -/
def upsert_month_target (db : DB) (metric : String) (month1 : Date) (value : Nat)
    (created_by : Option Nat) (department_id operator_id : Option Nat)
    (target_mode : String) (now : Nat) : DB × Nat :=
  match db.plan_targets.find? (monthUpsertMatch target_mode metric month1 department_id operator_id) with
  | some r =>
    ({ db with plan_targets := db.plan_targets.map (fun x =>
        if monthUpsertMatch target_mode metric month1 department_id operator_id x then
          { x with target_value := value } else x) }, r.id)
  | none =>
    let obj : TargetRow :=
      ⟨db.next_id, "month", target_mode, metric, month1, value,
       department_id, operator_id, created_by, now, now⟩
    ({ db with plan_targets := db.plan_targets ++ [obj], next_id := db.next_id + 1 }, obj.id)

/-- repo.py upsert_day_target: same UPDATE-then-INSERT shape for day/total. -/
def upsert_day_target (db : DB) (metric : String) (day : Date) (value : Nat)
    (created_by : Option Nat) (department_id operator_id : Option Nat)
    (now : Nat) : DB × Nat :=
  match db.plan_targets.find? (dayUpsertMatch metric day department_id operator_id) with
  | some r =>
    ({ db with plan_targets := db.plan_targets.map (fun x =>
        if dayUpsertMatch metric day department_id operator_id x then
          { x with target_value := value } else x) }, r.id)
  | none =>
    let obj : TargetRow :=
      ⟨db.next_id, "day", "total", metric, day, value,
       department_id, operator_id, created_by, now, now⟩
    ({ db with plan_targets := db.plan_targets ++ [obj], next_id := db.next_id + 1 }, obj.id)

/-- Violation of the partial unique indexes uq_pt_op and uq_pt_dept
(src/database/models.py): inserting obj conflicts with an existing row
sharing its operator- or department-scoped natural key. -/
def uniqueConflict (obj r : TargetRow) : Bool :=
  (r.metric == obj.metric && r.period_type == obj.period_type &&
   r.target_mode == obj.target_mode && r.period_date == obj.period_date) &&
  ((obj.operator_id.isSome && r.operator_id == obj.operator_id) ||
   (obj.department_id.isSome && r.department_id == obj.department_id))

/-- repo.py upsert_day_target under a same-natural-key race: a concurrent
writer commits the row interloper between the missed UPDATE and the INSERT.
The function body has no exception handler, so the unique-constraint
violation raised by the flush propagates to the caller (.error). -/
def upsert_day_target_raced (db : DB) (metric : String) (day : Date) (value : Nat)
    (created_by : Option Nat) (department_id operator_id : Option Nat)
    (now : Nat) (interloper : TargetRow) : Except Unit (DB × Nat) :=
  match db.plan_targets.find? (dayUpsertMatch metric day department_id operator_id) with
  | some r =>
    .ok ({ db with plan_targets := db.plan_targets.map (fun x =>
        if dayUpsertMatch metric day department_id operator_id x then
          { x with target_value := value } else x) }, r.id)
  | none =>
    let targets1 := db.plan_targets ++ [interloper]
    let obj : TargetRow :=
      ⟨db.next_id, "day", "total", metric, day, value,
       department_id, operator_id, created_by, now, now⟩
    if targets1.any (uniqueConflict obj) then .error ()
    else .ok ({ db with plan_targets := targets1 ++ [obj], next_id := db.next_id + 1 }, obj.id)

/-- Modelled from the spec: the StoreConflict handling described in §7 of the
specification is absent from src/ (repo.py has no retry and no exception
handler); this variant performs the prescribed one local retry — on a
unique-constraint conflict it re-attempts the UPDATE against the store as
left by the concurrent writer, then the INSERT, and only a second failure
is surfaced as an error. -/
def upsert_day_target_specRetry (db : DB) (metric : String) (day : Date) (value : Nat)
    (created_by : Option Nat) (department_id operator_id : Option Nat)
    (now : Nat) (interloper : TargetRow) : Except Unit (DB × Nat) :=
  match db.plan_targets.find? (dayUpsertMatch metric day department_id operator_id) with
  | some r =>
    .ok ({ db with plan_targets := db.plan_targets.map (fun x =>
        if dayUpsertMatch metric day department_id operator_id x then
          { x with target_value := value } else x) }, r.id)
  | none =>
    let targets1 := db.plan_targets ++ [interloper]
    let obj : TargetRow :=
      ⟨db.next_id, "day", "total", metric, day, value,
       department_id, operator_id, created_by, now, now⟩
    if targets1.any (uniqueConflict obj) then
      match targets1.find? (dayUpsertMatch metric day department_id operator_id) with
      | some r =>
        .ok ({ db with plan_targets := targets1.map (fun x =>
            if dayUpsertMatch metric day department_id operator_id x then
              { x with target_value := value } else x) }, r.id)
      | none =>
        if targets1.any (uniqueConflict obj) then .error ()
        else .ok ({ db with plan_targets := targets1 ++ [obj], next_id := db.next_id + 1 }, obj.id)
    else .ok ({ db with plan_targets := targets1 ++ [obj], next_id := db.next_id + 1 }, obj.id)

/-- The PlanMetric Literal of schemas.py. -/
def allowedMetrics : List String :=
  ["calls_total", "calls_success", "clients_total", "clients_success",
   "avg_duration", "total_talk_time", "indicators_done", "penalty_sum",
   "stages_done"]

/-- Request body of POST /plan-targets/set-month before validation
(schemas.py SetMonthIn); per_day and total are Int to express the ge=0
field constraint. -/
structure SetMonthIn where
  month : Date
  metric : String
  department_id : Option Nat
  operator_id : Option Nat
  per_day : Option Int
  total : Option Int
deriving DecidableEq

/-- Request body of POST /plan-targets/set-day before validation
(schemas.py SetDayIn). -/
structure SetDayIn where
  day : Date
  metric : String
  department_id : Option Nat
  operator_id : Option Nat
  value : Int
deriving DecidableEq

/-- Pydantic validation of SetMonthIn: the metric Literal, the ge=0 field
constraints, the normalize_month field validator (month floored to the
first), then check_subject_and_targets — exactly one of department_id and
operator_id, and at least one of per_day and total. -/
def validateSetMonthIn (b : SetMonthIn) : Except String SetMonthIn :=
  if !(allowedMetrics.contains b.metric) then .error "metric: not a permitted literal"
  else if (match b.per_day with | some v => decide (v < 0) | none => false) then .error "per_day: ge 0"
  else if (match b.total with | some v => decide (v < 0) | none => false) then .error "total: ge 0"
  else if (b.department_id.isNone && b.operator_id.isNone) ||
      (b.department_id.isSome && b.operator_id.isSome) then
    .error "subject: exactly one of department_id and operator_id"
  else if b.per_day.isNone && b.total.isNone then
    .error "targets: at least one of per_day and total"
  else .ok { b with month := firstOfMonth b.month }

/-- Pydantic validation of SetDayIn: the metric Literal, the ge=0 field
constraint on value, then check_subject. -/
def validateSetDayIn (b : SetDayIn) : Except String SetDayIn :=
  if !(allowedMetrics.contains b.metric) then .error "metric: not a permitted literal"
  else if b.value < 0 then .error "value: ge 0"
  else if (b.department_id.isNone && b.operator_id.isNone) ||
          (b.department_id.isSome && b.operator_id.isSome) then
    .error "subject: exactly one of department_id and operator_id"
  else .ok b

/-- repo.py assert_subject_exists: when operator_id is given the operator
must exist, otherwise the department named by department_id must exist. -/
def subjectExists (db : DB) (operator_id department_id : Option Nat) : Bool :=
  match operator_id with
  | some o => db.operators.contains o
  | none =>
    match department_id with
    | some d => db.departments.contains d
    | none => false

/-- routes_set.py set_month_targets: validate the body (pydantic runs before
the handler, so a validation failure is a 422 with the store untouched),
404 if the subject does not exist, then one upsert per supplied mode.
Returns the new state and the ids of the touched rows (or the HTTP error
status). -/
def set_month_endpoint (db : DB) (user : Option Nat) (b : SetMonthIn)
    (now : Nat) : DB × Except Nat (List Nat) :=
  match validateSetMonthIn b with
  | .error _ => (db, .error 422)
  | .ok body =>
    if !(subjectExists db body.operator_id body.department_id) then (db, .error 404)
    else
      let step1 : DB × List Nat :=
        match body.per_day with
        | some v =>
          let r := upsert_month_target db body.metric body.month v.toNat user
            body.department_id body.operator_id "per_day" now
          (r.1, [r.2])
        | none => (db, [])
      let step2 : DB × List Nat :=
        match body.total with
        | some v =>
          let r := upsert_month_target step1.1 body.metric body.month v.toNat user
            body.department_id body.operator_id "total" now
          (r.1, step1.2 ++ [r.2])
        | none => (step1.1, step1.2)
      (step2.1, .ok step2.2)

/-- routes_set.py set_day_target: validate, 404 if the subject is missing,
then the single day/total upsert. -/
def set_day_endpoint (db : DB) (user : Option Nat) (b : SetDayIn)
    (now : Nat) : DB × Except Nat (List Nat) :=
  match validateSetDayIn b with
  | .error _ => (db, .error 422)
  | .ok body =>
    if !(subjectExists db body.operator_id body.department_id) then (db, .error 404)
    else
      let r := upsert_day_target db body.metric body.day body.value.toNat user
        body.department_id body.operator_id now
      (r.1, .ok [r.2])

/-- Response row of a single-day evaluation (schemas.py EvaluateDailyOut). -/
structure EvaluateDailyOut where
  operator_id : Nat
  date : Date
  metric : String
  actual : Nat
  target : Option Nat
  source : Option String
  status : String
  ratio : Option ℚ
deriving DecidableEq

/-- Response of a period evaluation (schemas.py EvaluatePeriodOut). -/
structure EvaluatePeriodOut where
  operator_id : Nat
  date_from : Date
  date_to : Date
  metric : String
  actual : Nat
  target : Option Nat
  status : String
  ratio : Option ℚ
  days : Nat
  daily_breakdown : List EvaluateDailyOut
deriving DecidableEq

/-- Response of a monthly evaluation (schemas.py EvaluateMonthlyOut). -/
structure EvaluateMonthlyOut where
  operator_id : Nat
  month : Date
  metric : String
  actual : Nat
  target : Option Nat
  source : Option String
  status : String
  ratio : Option ℚ
  days_in_month : Nat
deriving DecidableEq

/-- GET /plan-targets/evaluate/daily returns one of two response models. -/
inductive EvalDailyResult where
  | single : EvaluateDailyOut → EvalDailyResult
  | period : EvaluatePeriodOut → EvalDailyResult
deriving DecidableEq

/-- One day of routes_eval.py evaluate_daily under the fixed-up repo module
(see effective_daily_value_fixedImports): the actual over [d, d], the
effective daily target with its source, and the classification. -/
def evalOneDay_fixedImports (db : DB) (op : Nat) (metric : String) (d : Date) : EvaluateDailyOut :=
  let a := actual_for_range_fixedImports db op d d metric
  let ts := effective_daily_value_fixedImports db op d metric
  let sr := classify metric (a : Int) (ts.1.map (fun n => (n : Int)))
  ⟨op, d, metric, a, ts.1, ts.2, sr.1, sr.2⟩

/-- routes_eval.py evaluate_daily under the fixed-up repo module: a single
day when day is given, a period when date_from and date_to are given (both
inclusive); 400 when day is combined with a range bound, when neither shape
is complete, or when date_from > date_to. The period branch builds the
per-day breakdown, sums the actuals, sums the non-null targets, nulls a
zero target sum, and classifies the aggregates. The executed behavior is
evaluate_daily below. -/
def evaluate_daily_fixedImports (db : DB) (op : Nat) (metric : String)
    (day date_from date_to : Option Date) : Except Nat EvalDailyResult :=
  if day.isSome && (date_from.isSome || date_to.isSome) then .error 400
  else
    match day with
    | some d => .ok (.single (evalOneDay_fixedImports db op metric d))
    | none =>
      match date_from, date_to with
      | some df, some dt =>
        if toOrd dt < toOrd df then .error 400
        else
          let days := toOrd dt - toOrd df + 1
          let breakdown := (List.range days).map (fun i => evalOneDay_fixedImports db op metric (addDays df i))
          let actual_total : Nat := (breakdown.map (fun b => b.actual)).sum
          let target_total : Nat := (breakdown.filterMap (fun b => b.target)).sum
          let target_agg : Option Nat := if 0 < target_total then some target_total else none
          let sr := classify metric (actual_total : Int) (target_agg.map (fun n => (n : Int)))
          .ok (.period ⟨op, df, dt, metric, actual_total, target_agg, sr.1, sr.2, days, breakdown⟩)
      | _, _ => .error 400

/-- Row filter of the first monthly tier (routes_eval.py evaluate_monthly_fixedImports):
operator-scoped month/total row for the metric at the first of the month. -/
def monthTotalOpMatch (op : Nat) (month1 : Date) (metric : String) (r : TargetRow) : Bool :=
  r.operator_id == some op && r.department_id == none &&
  r.period_type == "month" && r.target_mode == "total" &&
  r.metric == metric && r.period_date == month1

/-- Row filter of the second monthly tier: department-scoped month/total row
of one of the operator's departments. -/
def monthTotalDeptMatch (db : DB) (op : Nat) (month1 : Date) (metric : String)
    (r : TargetRow) : Bool :=
  (match r.department_id with
   | some dep => memberDept db op dep
   | none => false) &&
  r.operator_id == none &&
  r.period_type == "month" && r.target_mode == "total" &&
  r.metric == metric && r.period_date == month1

/-- month.replace(day=28) + 4 days, floored to the first: the first day of
the following month, exactly as computed in evaluate_monthly_fixedImports. -/
def nextMonthFirst (x : Date) : Date :=
  firstOfMonth (addDays ⟨x.y, x.m, 28⟩ 4)

/-- The last day of the month of x (next_m - timedelta(days=1)). -/
def monthLastDay (x : Date) : Date := prevDay (nextMonthFirst x)

/-- (last_day - month1).days + 1 of evaluate_monthly_fixedImports. -/
def daysCountInMonth (x : Date) : Nat :=
  toOrd (monthLastDay x) - toOrd (firstOfMonth x) + 1

/-- The calendar days of the month of x, first to last. -/
def monthDayList (x : Date) : List Date :=
  (List.range (daysCountInMonth x)).map (fun i => addDays (firstOfMonth x) i)

/-- routes_eval.py evaluate_monthly under the fixed-up repo module: the
actual over the whole month, then the month target by the coarser
precedence — operator month/total, else department month/total (most
recently created), else the sum of the per-day effective targets over every
day of the month with a zero sum nulled — classified as usual. The executed
behavior is evaluate_monthly below. -/
def evaluate_monthly_fixedImports (db : DB) (op : Nat) (month : Date) (metric : String) :
    EvaluateMonthlyOut :=
  let month1 := firstOfMonth month
  let actual := actual_for_range_fixedImports db op month1 (monthLastDay month) metric
  let dim := daysCountInMonth month
  match db.plan_targets.find? (monthTotalOpMatch op month1 metric) with
  | some r =>
    let sr := classify metric (actual : Int) (some (r.target_value : Int))
    ⟨op, month1, metric, actual, some r.target_value, some "operator/month_total", sr.1, sr.2, dim⟩
  | none =>
  match maxByCreated (db.plan_targets.filter (monthTotalDeptMatch db op month1 metric)) with
  | some r =>
    let sr := classify metric (actual : Int) (some (r.target_value : Int))
    ⟨op, month1, metric, actual, some r.target_value, some "dept/month_total", sr.1, sr.2, dim⟩
  | none =>
    let target_sum : Nat := ((monthDayList month).filterMap
      (fun d => (effective_daily_value_fixedImports db op d metric).1)).sum
    let target : Option Nat := if 0 < target_sum then some target_sum else none
    let sr := classify metric (actual : Int) (target.map (fun n => (n : Int)))
    ⟨op, month1, metric, actual, target, none, sr.1, sr.2, dim⟩

/-- A NameError raised inside repo.py, which uses these global names without
bringing them into scope (the file from sqlalchemy takes only select, update,
and_, and from database.models only Operators, Departments, PlanTargets):
t_operator_departments in tiers 3/4 of effective_daily_value (repo.py:148
and :170), and func together with Calls in every branch of actual_for_range
(repo.py:192-201). -/
inductive PyNameError where
  | operatorDepartmentsTable
  | funcCalls
deriving DecidableEq

/-- repo.py effective_daily_value as it executes: tiers 1 and 2 run their
operator-scoped lookups, but building the tier-3 query evaluates the global
t_operator_departments, which is not in repo.py's scope, so whenever tiers
1-2 both miss the call raises NameError; the department tiers and the
(None, None) return at repo.py:188 are unreachable. -/
def effective_daily_value (db : DB) (op : Nat) (day : Date) (metric : String) :
    Except PyNameError (Option Nat × Option String) :=
  let month1 := firstOfMonth day
  match db.plan_targets.find? (tier1Match op day metric) with
  | some r => .ok (some r.target_value, some "operator/day")
  | none =>
  match db.plan_targets.find? (tier2Match op month1 metric) with
  | some r => .ok (some r.target_value, some "operator/month_per_day")
  | none => .error .operatorDepartmentsTable

/-- repo.py actual_for_range as it executes: every branch of the metric
dispatch builds its aggregate from the globals func and Calls, neither in
repo.py's scope, so the call raises NameError before touching the store. -/
def actual_for_range (db : DB) (op : Nat) (df dt : Date) (metric : String) :
    Except PyNameError Nat :=
  .error .funcCalls

/-- An error escaping a routes_eval handler: a deliberately raised
HTTPException with its status code, or an unhandled NameError bubbling up
from repo.py, which FastAPI surfaces as a 500. -/
inductive RouteErr where
  | http : Nat → RouteErr
  | nameError : PyNameError → RouteErr
deriving DecidableEq

/-- One day of routes_eval.py evaluate_daily as it executes: the day actual
via actual_for_range, then the effective daily target, then the
classification, any raised error propagating. -/
def evalOneDay (db : DB) (op : Nat) (metric : String) (d : Date) :
    Except PyNameError EvaluateDailyOut :=
  match actual_for_range db op d d metric with
  | .error e => .error e
  | .ok a =>
    match effective_daily_value db op d metric with
    | .error e => .error e
    | .ok ts =>
      let sr := classify metric (a : Int) (ts.1.map (fun n => (n : Int)))
      .ok ⟨op, d, metric, a, ts.1, ts.2, sr.1, sr.2⟩

/-- The period loop of evaluate_daily at day index i with n days remaining,
stopping at the first raised error. -/
def breakdownFrom (db : DB) (op : Nat) (metric : String) (df : Date) (i : Nat) :
    Nat → Except PyNameError (List EvaluateDailyOut)
  | 0 => .ok []
  | n + 1 =>
    match evalOneDay db op metric (addDays df i) with
    | .error e => .error e
    | .ok o =>
      match breakdownFrom db op metric df (i + 1) n with
      | .error e => .error e
      | .ok rest => .ok (o :: rest)

/-- routes_eval.py evaluate_daily as it executes: the 400 validations run
first; any surviving request then reaches actual_for_range, whose NameError
propagates out of the handler (a 500). The aggregation below the loop is
written but unreachable. -/
def evaluate_daily (db : DB) (op : Nat) (metric : String)
    (day date_from date_to : Option Date) : Except RouteErr EvalDailyResult :=
  if day.isSome && (date_from.isSome || date_to.isSome) then .error (.http 400)
  else
    match day with
    | some d =>
      match evalOneDay db op metric d with
      | .error e => .error (.nameError e)
      | .ok o => .ok (.single o)
    | none =>
      match date_from, date_to with
      | some df, some dt =>
        if toOrd dt < toOrd df then .error (.http 400)
        else
          match breakdownFrom db op metric df 0 (toOrd dt - toOrd df + 1) with
          | .error e => .error (.nameError e)
          | .ok breakdown =>
            let actual_total : Nat := (breakdown.map (fun b => b.actual)).sum
            let target_total : Nat := (breakdown.filterMap (fun b => b.target)).sum
            let target_agg : Option Nat := if 0 < target_total then some target_total else none
            let sr := classify metric (actual_total : Int) (target_agg.map (fun n => (n : Int)))
            .ok (.period ⟨op, df, dt, metric, actual_total, target_agg, sr.1, sr.2,
              toOrd dt - toOrd df + 1, breakdown⟩)
      | _, _ => .error (.http 400)

/-- The day-by-day fallback sum of evaluate_monthly as it executes at day
index i with n days remaining, stopping at the first raised error. -/
def sumEffectiveFrom (db : DB) (op : Nat) (metric : String) (month1 : Date) (i : Nat) :
    Nat → Except PyNameError Nat
  | 0 => .ok 0
  | n + 1 =>
    match effective_daily_value db op (addDays month1 i) metric with
    | .error e => .error e
    | .ok ts =>
      match sumEffectiveFrom db op metric month1 (i + 1) n with
      | .error e => .error e
      | .ok s => .ok ((match ts.1 with | some t => t | none => 0) + s)

/-- routes_eval.py evaluate_monthly as it executes: the month actual via
actual_for_range comes first (routes_eval.py:118) and raises NameError, so
the handler always 500s; the three-step target precedence below it is
written but unreachable. -/
def evaluate_monthly (db : DB) (op : Nat) (month : Date) (metric : String) :
    Except PyNameError EvaluateMonthlyOut :=
  let month1 := firstOfMonth month
  match actual_for_range db op month1 (monthLastDay month) metric with
  | .error e => .error e
  | .ok actual =>
    let dim := daysCountInMonth month
    match db.plan_targets.find? (monthTotalOpMatch op month1 metric) with
    | some r =>
      let sr := classify metric (actual : Int) (some (r.target_value : Int))
      .ok ⟨op, month1, metric, actual, some r.target_value,
        some "operator/month_total", sr.1, sr.2, dim⟩
    | none =>
    match maxByCreated (db.plan_targets.filter (monthTotalDeptMatch db op month1 metric)) with
    | some r =>
      let sr := classify metric (actual : Int) (some (r.target_value : Int))
      .ok ⟨op, month1, metric, actual, some r.target_value,
        some "dept/month_total", sr.1, sr.2, dim⟩
    | none =>
      match sumEffectiveFrom db op metric month1 0 dim with
      | .error e => .error e
      | .ok target_sum =>
        let target : Option Nat := if 0 < target_sum then some target_sum else none
        let sr := classify metric (actual : Int) (target.map (fun n => (n : Int)))
        .ok ⟨op, month1, metric, actual, target, none, sr.1, sr.2, dim⟩

/-- C2: with a strictly positive clamped target t = max(target, 0), classify
returns ratio = actual / t, and the status thresholds are: for penalty_sum,
good iff actual <= t, average iff t < actual <= 1.3 t, bad iff actual > 1.3 t;
for every other metric, good iff ratio >= 1, average iff 0.7 <= ratio < 1,
bad iff ratio < 0.7. -/
theorem classify_positive_target_thresholds (metric : String) (actual t0 : Int)
    (h : 0 < max t0 0) :
    (classify metric actual (some t0)).2
      = some ((actual : ℚ) / ((max t0 0 : Int) : ℚ)) ∧
    (metric = "penalty_sum" →
      ((classify metric actual (some t0)).1 = "good" ↔ actual ≤ max t0 0) ∧
      ((classify metric actual (some t0)).1 = "average" ↔
        max t0 0 < actual ∧ (actual : ℚ) ≤ 13 / 10 * ((max t0 0 : Int) : ℚ)) ∧
      ((classify metric actual (some t0)).1 = "bad" ↔
        13 / 10 * ((max t0 0 : Int) : ℚ) < (actual : ℚ))) ∧
    (metric ≠ "penalty_sum" →
      ((classify metric actual (some t0)).1 = "good" ↔
        1 ≤ (actual : ℚ) / ((max t0 0 : Int) : ℚ)) ∧
      ((classify metric actual (some t0)).1 = "average" ↔
        7 / 10 ≤ (actual : ℚ) / ((max t0 0 : Int) : ℚ) ∧
          (actual : ℚ) / ((max t0 0 : Int) : ℚ) < 1) ∧
      ((classify metric actual (some t0)).1 = "bad" ↔
        (actual : ℚ) / ((max t0 0 : Int) : ℚ) < 7 / 10)) := by
  have hpos : 0 < t0 := by omega
  have hmax : max t0 0 = t0 := max_eq_left (le_of_lt hpos)
  simp only [hmax]
  have hne : (t0 == 0) = false := by
    rw [beq_eq_false_iff_ne]
    omega
  have htQ : (0 : ℚ) < (t0 : ℚ) := by exact_mod_cast hpos
  by_cases hm : metric = "penalty_sum"
  · have hbeq : (metric == "penalty_sum") = true := by simp [hm]
    by_cases h1 : actual ≤ t0
    · have hcl : classify metric actual (some t0)
          = ("good", some ((actual : ℚ) / (t0 : ℚ))) := by
        simp [classify, hbeq, hmax, hne, h1]
      have hst : (classify metric actual (some t0)).1 = "good" := by rw [hcl]
      have hrt : (classify metric actual (some t0)).2
          = some ((actual : ℚ) / (t0 : ℚ)) := by rw [hcl]
      have hQ1 : (actual : ℚ) ≤ (t0 : ℚ) := by exact_mod_cast h1
      rw [hst, hrt]
      refine ⟨rfl, fun _ => ⟨iff_of_true rfl h1, ?_, ?_⟩, fun hc => absurd hm hc⟩
      · exact iff_of_false (by decide) (fun hc => absurd h1 (not_le.mpr hc.1))
      · exact iff_of_false (by decide) (not_lt.mpr (by nlinarith))
    · by_cases h2 : (actual : ℚ) ≤ (t0 : ℚ) * (13 / 10)
      · have hcl : classify metric actual (some t0)
            = ("average", some ((actual : ℚ) / (t0 : ℚ))) := by
          simp [classify, hbeq, hmax, hne, h1, h2]
        have hst : (classify metric actual (some t0)).1 = "average" := by rw [hcl]
        have hrt : (classify metric actual (some t0)).2
            = some ((actual : ℚ) / (t0 : ℚ)) := by rw [hcl]
        rw [hst, hrt]
        refine ⟨rfl, fun _ => ⟨?_, ?_, ?_⟩, fun hc => absurd hm hc⟩
        · exact iff_of_false (by decide) h1
        · exact iff_of_true rfl ⟨by omega, by linarith⟩
        · exact iff_of_false (by decide) (not_lt.mpr (by linarith))
      · have hcl : classify metric actual (some t0)
            = ("bad", some ((actual : ℚ) / (t0 : ℚ))) := by
          simp [classify, hbeq, hmax, hne, h1, h2]
        have hst : (classify metric actual (some t0)).1 = "bad" := by rw [hcl]
        have hrt : (classify metric actual (some t0)).2
            = some ((actual : ℚ) / (t0 : ℚ)) := by rw [hcl]
        rw [hst, hrt]
        refine ⟨rfl, fun _ => ⟨?_, ?_, ?_⟩, fun hc => absurd hm hc⟩
        · exact iff_of_false (by decide) h1
        · exact iff_of_false (by decide) (fun hc => absurd hc.2 (by linarith [not_le.mp h2]))
        · exact iff_of_true rfl (by linarith [not_le.mp h2])
  · have hbeq : (metric == "penalty_sum") = false := by simp [hm]
    by_cases h1 : 1 ≤ (actual : ℚ) / (t0 : ℚ)
    · have hcl : classify metric actual (some t0)
          = ("good", some ((actual : ℚ) / (t0 : ℚ))) := by
        simp [classify, hbeq, hmax, hne, h1]
      have hst : (classify metric actual (some t0)).1 = "good" := by rw [hcl]
      have hrt : (classify metric actual (some t0)).2
          = some ((actual : ℚ) / (t0 : ℚ)) := by rw [hcl]
      rw [hst, hrt]
      refine ⟨rfl, fun hc => absurd hc hm, fun _ => ⟨iff_of_true rfl h1, ?_, ?_⟩⟩
      · exact iff_of_false (by decide) (fun hc => absurd h1 (not_le.mpr hc.2))
      · exact iff_of_false (by decide) (not_lt.mpr (by linarith))
    · by_cases h2 : 7 / 10 ≤ (actual : ℚ) / (t0 : ℚ)
      · have hcl : classify metric actual (some t0)
            = ("average", some ((actual : ℚ) / (t0 : ℚ))) := by
          simp [classify, hbeq, hmax, hne, h1, h2]
        have hst : (classify metric actual (some t0)).1 = "average" := by rw [hcl]
        have hrt : (classify metric actual (some t0)).2
            = some ((actual : ℚ) / (t0 : ℚ)) := by rw [hcl]
        rw [hst, hrt]
        refine ⟨rfl, fun hc => absurd hc hm, fun _ => ⟨?_, ?_, ?_⟩⟩
        · exact iff_of_false (by decide) h1
        · exact iff_of_true rfl ⟨h2, not_le.mp h1⟩
        · exact iff_of_false (by decide) (not_lt.mpr h2)
      · have hcl : classify metric actual (some t0)
            = ("bad", some ((actual : ℚ) / (t0 : ℚ))) := by
          simp [classify, hbeq, hmax, hne, h1, h2]
        have hst : (classify metric actual (some t0)).1 = "bad" := by rw [hcl]
        have hrt : (classify metric actual (some t0)).2
            = some ((actual : ℚ) / (t0 : ℚ)) := by rw [hcl]
        rw [hst, hrt]
        refine ⟨rfl, fun hc => absurd hc hm, fun _ => ⟨?_, ?_, ?_⟩⟩
        · exact iff_of_false (by decide) h1
        · exact iff_of_false (by decide) (fun hc => absurd hc.1 h2)
        · exact iff_of_true rfl (not_le.mp h2)

/-- Witness for C2 at metric stages_done, actual 5, target 3. -/
theorem classify_positive_target_thresholds_witness :
    ((0 : Int) < max (3 : Int) 0) ∧
    ((classify "stages_done" (5 : Int) (some (3 : Int))).2
      = some (((5 : Int) : ℚ) / ((max (3 : Int) 0 : Int) : ℚ)) ∧
    ("stages_done" = "penalty_sum" →
      ((classify "stages_done" (5 : Int) (some (3 : Int))).1 = "good" ↔
        (5 : Int) ≤ max (3 : Int) 0) ∧
      ((classify "stages_done" (5 : Int) (some (3 : Int))).1 = "average" ↔
        max (3 : Int) 0 < (5 : Int) ∧
          ((5 : Int) : ℚ) ≤ 13 / 10 * ((max (3 : Int) 0 : Int) : ℚ)) ∧
      ((classify "stages_done" (5 : Int) (some (3 : Int))).1 = "bad" ↔
        13 / 10 * ((max (3 : Int) 0 : Int) : ℚ) < ((5 : Int) : ℚ))) ∧
    ("stages_done" ≠ "penalty_sum" →
      ((classify "stages_done" (5 : Int) (some (3 : Int))).1 = "good" ↔
        1 ≤ ((5 : Int) : ℚ) / ((max (3 : Int) 0 : Int) : ℚ)) ∧
      ((classify "stages_done" (5 : Int) (some (3 : Int))).1 = "average" ↔
        7 / 10 ≤ ((5 : Int) : ℚ) / ((max (3 : Int) 0 : Int) : ℚ) ∧
          ((5 : Int) : ℚ) / ((max (3 : Int) 0 : Int) : ℚ) < 1) ∧
      ((classify "stages_done" (5 : Int) (some (3 : Int))).1 = "bad" ↔
        ((5 : Int) : ℚ) / ((max (3 : Int) 0 : Int) : ℚ) < 7 / 10))) :=
  ⟨by decide, classify_positive_target_thresholds "stages_done" 5 3 (by decide)⟩

/-- C3: classify answers (no_target, none) on a null target; with a clamped
target of 0 the ratio is none and the status is direction-dependent: for
penalty_sum good iff actual = 0 else bad, for every other metric good iff
actual > 0 else bad. -/
theorem classify_null_and_zero_target (metric : String) (actual t0 : Int) :
    classify metric actual none = ("no_target", none) ∧
    (max t0 0 = 0 →
      (classify metric actual (some t0)).2 = none ∧
      (metric = "penalty_sum" →
        ((classify metric actual (some t0)).1 = "good" ↔ actual = 0) ∧
        ((classify metric actual (some t0)).1 = "bad" ↔ actual ≠ 0)) ∧
      (metric ≠ "penalty_sum" →
        ((classify metric actual (some t0)).1 = "good" ↔ 0 < actual) ∧
        ((classify metric actual (some t0)).1 = "bad" ↔ ¬ 0 < actual))) := by
  refine ⟨rfl, fun hz => ?_⟩
  by_cases hm : metric = "penalty_sum"
  · have hbeq : (metric == "penalty_sum") = true := by simp [hm]
    by_cases ha : actual = 0
    · have hcl : classify metric actual (some t0) = ("good", none) := by
        simp [classify, hbeq, hz, ha]
      rw [hcl]
      exact ⟨rfl, fun _ => ⟨iff_of_true rfl ha, iff_of_false (by decide) (fun hc => hc ha)⟩,
        fun hc => absurd hm hc⟩
    · have hcl : classify metric actual (some t0) = ("bad", none) := by
        simp [classify, hbeq, hz, ha]
      rw [hcl]
      exact ⟨rfl, fun _ => ⟨iff_of_false (by decide) ha, iff_of_true rfl ha⟩,
        fun hc => absurd hm hc⟩
  · have hbeq : (metric == "penalty_sum") = false := by simp [hm]
    by_cases ha : 0 < actual
    · have hcl : classify metric actual (some t0) = ("good", none) := by
        simp [classify, hbeq, hz, ha]
      rw [hcl]
      exact ⟨rfl, fun hc => absurd hc hm,
        fun _ => ⟨iff_of_true rfl ha, iff_of_false (by decide) (fun hc => hc ha)⟩⟩
    · have hcl : classify metric actual (some t0) = ("bad", none) := by
        simp [classify, hbeq, hz, ha]
      rw [hcl]
      exact ⟨rfl, fun hc => absurd hc hm,
        fun _ => ⟨iff_of_false (by decide) ha, iff_of_true rfl ha⟩⟩

/-- Witness for C3 at metric indicators_done, actual 1, target 0. -/
theorem classify_null_and_zero_target_witness :
    (classify "indicators_done" (1 : Int) none = ("no_target", none) ∧
    (max (0 : Int) 0 = 0 →
      (classify "indicators_done" (1 : Int) (some (0 : Int))).2 = none ∧
      ("indicators_done" = "penalty_sum" →
        ((classify "indicators_done" (1 : Int) (some (0 : Int))).1 = "good" ↔ (1 : Int) = 0) ∧
        ((classify "indicators_done" (1 : Int) (some (0 : Int))).1 = "bad" ↔ (1 : Int) ≠ 0)) ∧
      ("indicators_done" ≠ "penalty_sum" →
        ((classify "indicators_done" (1 : Int) (some (0 : Int))).1 = "good" ↔ (0 : Int) < 1) ∧
        ((classify "indicators_done" (1 : Int) (some (0 : Int))).1 = "bad" ↔ ¬ (0 : Int) < 1)))) ∧
    max (0 : Int) 0 = 0 :=
  ⟨classify_null_and_zero_target "indicators_done" 1 0, by decide⟩

theorem maxByCreated_eq_none {l : List TargetRow} :
    maxByCreated l = none ↔ l = [] := by
  induction l with
  | nil => simp [maxByCreated]
  | cons r rs ih =>
    cases hm : maxByCreated rs with
    | none => simp [maxByCreated, hm]
    | some b =>
      by_cases hlt : r.created_at < b.created_at <;> simp [maxByCreated, hm, hlt]

theorem maxByCreated_mem {l : List TargetRow} {r : TargetRow}
    (h : maxByCreated l = some r) : r ∈ l := by
  induction l with
  | nil => simp [maxByCreated] at h
  | cons x xs ih =>
    cases hm : maxByCreated xs with
    | none =>
      simp only [maxByCreated, hm, Option.some.injEq] at h
      simp [← h]
    | some b =>
      by_cases hlt : x.created_at < b.created_at
      · simp only [maxByCreated, hm, hlt, if_true, Option.some.injEq] at h
        exact List.mem_cons_of_mem x (ih (h ▸ hm))
      · simp only [maxByCreated, hm, hlt, if_false, Option.some.injEq] at h
        simp [← h]

theorem maxByCreated_ge :
    ∀ {l : List TargetRow} {r : TargetRow}, maxByCreated l = some r →
      ∀ s ∈ l, s.created_at ≤ r.created_at := by
  intro l
  induction l with
  | nil => intro r h; simp [maxByCreated] at h
  | cons x xs ih =>
    intro r h s hs
    cases hm : maxByCreated xs with
    | none =>
      simp only [maxByCreated, hm, Option.some.injEq] at h
      rcases List.mem_cons.mp hs with hsx | hsxs
      · subst hsx
        rw [h]
      · rw [maxByCreated_eq_none.mp hm] at hsxs
        simp at hsxs
    | some b =>
      by_cases hlt : x.created_at < b.created_at
      · simp only [maxByCreated, hm, hlt, if_true, Option.some.injEq] at h
        subst h
        rcases List.mem_cons.mp hs with hsx | hsxs
        · subst hsx
          exact le_of_lt hlt
        · exact ih hm s hsxs
      · simp only [maxByCreated, hm, hlt, if_false, Option.some.injEq] at h
        subst h
        rcases List.mem_cons.mp hs with hsx | hsxs
        · subst hsx
          exact le_refl _
        · have hb := ih hm s hsxs
          omega

/-- Under the fixed-up repo module, the value and the source label of effective_daily_value_fixedImports
are none together, and every returned source label is one of the four tier
labels operator/day, operator/month_per_day, dept/day, dept/month_per_day. -/
theorem effective_daily_value_null_iff_sources (db : DB) (op : Nat) (day : Date)
    (metric : String) :
    ((effective_daily_value_fixedImports db op day metric).1 = none ↔
      (effective_daily_value_fixedImports db op day metric).2 = none) ∧
    (∀ s : String, (effective_daily_value_fixedImports db op day metric).2 = some s →
      s = "operator/day" ∨ s = "operator/month_per_day" ∨
      s = "dept/day" ∨ s = "dept/month_per_day") := by
  simp only [effective_daily_value_fixedImports]
  cases db.plan_targets.find? (tier1Match op day metric) with
  | some r => simp
  | none =>
    cases db.plan_targets.find? (tier2Match op (firstOfMonth day) metric) with
    | some r => simp
    | none =>
      cases maxByCreated (db.plan_targets.filter (tier3Match db op day metric)) with
      | some r => simp
      | none =>
        cases maxByCreated
            (db.plan_targets.filter (tier4Match db op (firstOfMonth day) metric)) with
        | some r => simp
        | none => simp

/-- Example: a store with one matching operator/day row produces the
source label operator/day. -/
theorem effective_daily_value_null_iff_sources_witness :
    (effective_daily_value_fixedImports
      ⟨[7], [], [], [⟨1, "day", "total", "stages_done", ⟨2025, 8, 15⟩, 4, none,
        some 7, none, 3, 3⟩], [], 2⟩ 7 ⟨2025, 8, 15⟩ "stages_done").2
        = some "operator/day" ∧
    ("operator/day" = "operator/day" ∨ "operator/day" = "operator/month_per_day" ∨
      "operator/day" = "dept/day" ∨ "operator/day" = "dept/month_per_day") :=
  ⟨by decide,
   (effective_daily_value_null_iff_sources
      ⟨[7], [], [], [⟨1, "day", "total", "stages_done", ⟨2025, 8, 15⟩, 4, none,
        some 7, none, 3, 3⟩], [], 2⟩ 7 ⟨2025, 8, 15⟩ "stages_done").2
      "operator/day" (by decide)⟩

/-- Under the fixed-up repo module, effective_daily_value_fixedImports
probes operator/day, operator/month_per_day,
dept/day, dept/month_per_day in strict priority order and returns the first
matching target value with the label of the producing tier; when no tier
matches it returns (none, none) instead of failing; in the two department
tiers the returned row has the greatest created_at among the matching rows
of the operator's departments. -/
theorem effective_daily_value_precedence (db : DB) (op : Nat) (day : Date)
    (metric : String) :
    ((∃ r ∈ db.plan_targets, tier1Match op day metric r = true) →
      ∃ r ∈ db.plan_targets, tier1Match op day metric r = true ∧
        effective_daily_value_fixedImports db op day metric
          = (some r.target_value, some "operator/day")) ∧
    ((∀ r ∈ db.plan_targets, ¬ tier1Match op day metric r = true) →
      ((∃ r ∈ db.plan_targets, tier2Match op (firstOfMonth day) metric r = true) →
        ∃ r ∈ db.plan_targets, tier2Match op (firstOfMonth day) metric r = true ∧
          effective_daily_value_fixedImports db op day metric
            = (some r.target_value, some "operator/month_per_day")) ∧
      ((∀ r ∈ db.plan_targets, ¬ tier2Match op (firstOfMonth day) metric r = true) →
        ((∃ r ∈ db.plan_targets, tier3Match db op day metric r = true) →
          ∃ r ∈ db.plan_targets, tier3Match db op day metric r = true ∧
            effective_daily_value_fixedImports db op day metric
              = (some r.target_value, some "dept/day") ∧
            ∀ s ∈ db.plan_targets, tier3Match db op day metric s = true →
              s.created_at ≤ r.created_at) ∧
        ((∀ r ∈ db.plan_targets, ¬ tier3Match db op day metric r = true) →
          ((∃ r ∈ db.plan_targets, tier4Match db op (firstOfMonth day) metric r = true) →
            ∃ r ∈ db.plan_targets, tier4Match db op (firstOfMonth day) metric r = true ∧
              effective_daily_value_fixedImports db op day metric
                = (some r.target_value, some "dept/month_per_day") ∧
              ∀ s ∈ db.plan_targets, tier4Match db op (firstOfMonth day) metric s = true →
                s.created_at ≤ r.created_at) ∧
          ((∀ r ∈ db.plan_targets, ¬ tier4Match db op (firstOfMonth day) metric r = true) →
            effective_daily_value_fixedImports db op day metric = (none, none))))) := by
  constructor
  · intro hex
    obtain ⟨r0, h0⟩ := Option.isSome_iff_exists.mp (List.find?_isSome.mpr hex)
    exact ⟨r0, List.mem_of_find?_eq_some h0, List.find?_some h0,
      by simp only [effective_daily_value_fixedImports, h0]⟩
  · intro hall1
    have hf1 : db.plan_targets.find? (tier1Match op day metric) = none :=
      List.find?_eq_none.mpr hall1
    constructor
    · intro hex
      obtain ⟨r0, h0⟩ := Option.isSome_iff_exists.mp (List.find?_isSome.mpr hex)
      exact ⟨r0, List.mem_of_find?_eq_some h0, List.find?_some h0,
        by simp only [effective_daily_value_fixedImports, hf1, h0]⟩
    · intro hall2
      have hf2 : db.plan_targets.find? (tier2Match op (firstOfMonth day) metric) = none :=
        List.find?_eq_none.mpr hall2
      constructor
      · intro hex
        obtain ⟨r, hr, hm3⟩ := hex
        have hmem : r ∈ db.plan_targets.filter (tier3Match db op day metric) :=
          List.mem_filter.mpr ⟨hr, hm3⟩
        have hnil : db.plan_targets.filter (tier3Match db op day metric) ≠ [] :=
          fun hc => by rw [hc] at hmem; simp at hmem
        have hsome : (maxByCreated
            (db.plan_targets.filter (tier3Match db op day metric))).isSome = true := by
          cases hcase : maxByCreated (db.plan_targets.filter (tier3Match db op day metric)) with
          | none => exact absurd (maxByCreated_eq_none.mp hcase) hnil
          | some b => rfl
        obtain ⟨r0, h0⟩ := Option.isSome_iff_exists.mp hsome
        have hr0 := List.mem_filter.mp (maxByCreated_mem h0)
        refine ⟨r0, hr0.1, hr0.2, by simp only [effective_daily_value_fixedImports, hf1, hf2, h0], ?_⟩
        intro s hs hms
        exact maxByCreated_ge h0 s (List.mem_filter.mpr ⟨hs, hms⟩)
      · intro hall3
        have hf3 : db.plan_targets.filter (tier3Match db op day metric) = [] :=
          List.filter_eq_nil_iff.mpr hall3
        have hm3 : maxByCreated (db.plan_targets.filter (tier3Match db op day metric)) = none := by
          rw [hf3]
          rfl
        constructor
        · intro hex
          obtain ⟨r, hr, hm4⟩ := hex
          have hmem : r ∈ db.plan_targets.filter (tier4Match db op (firstOfMonth day) metric) :=
            List.mem_filter.mpr ⟨hr, hm4⟩
          have hnil : db.plan_targets.filter (tier4Match db op (firstOfMonth day) metric) ≠ [] :=
            fun hc => by rw [hc] at hmem; simp at hmem
          have hsome : (maxByCreated
              (db.plan_targets.filter (tier4Match db op (firstOfMonth day) metric))).isSome = true := by
            cases hcase : maxByCreated
                (db.plan_targets.filter (tier4Match db op (firstOfMonth day) metric)) with
            | none => exact absurd (maxByCreated_eq_none.mp hcase) hnil
            | some b => rfl
          obtain ⟨r0, h0⟩ := Option.isSome_iff_exists.mp hsome
          have hr0 := List.mem_filter.mp (maxByCreated_mem h0)
          refine ⟨r0, hr0.1, hr0.2,
            by simp only [effective_daily_value_fixedImports, hf1, hf2, hm3, h0], ?_⟩
          intro s hs hms
          exact maxByCreated_ge h0 s (List.mem_filter.mpr ⟨hs, hms⟩)
        · intro hall4
          have hf4 : db.plan_targets.filter (tier4Match db op (firstOfMonth day) metric) = [] :=
            List.filter_eq_nil_iff.mpr hall4
          have hm4 : maxByCreated
              (db.plan_targets.filter (tier4Match db op (firstOfMonth day) metric)) = none := by
            rw [hf4]
            rfl
          simp only [effective_daily_value_fixedImports, hf1, hf2, hm3, hm4]

/-- Store of the resolver witness: operator 7 belongs to department 3, which
holds a month/per_day target of 20 for indicators_done in August 2025. -/
def dbResolver : DB :=
  ⟨[7], [3], [(7, 3)],
   [⟨1, "month", "per_day", "indicators_done", ⟨2025, 8, 1⟩, 20, some 3, none,
     none, 10, 10⟩], [], 2⟩

/-- Example: with only the department default configured, the fourth
tier answers (20, dept/month_per_day) for 2025-08-15. -/
theorem effective_daily_value_precedence_witness :
    ∃ r ∈ dbResolver.plan_targets,
      tier4Match dbResolver 7 (firstOfMonth ⟨2025, 8, 15⟩) "indicators_done" r = true ∧
      effective_daily_value_fixedImports dbResolver 7 ⟨2025, 8, 15⟩ "indicators_done"
        = (some r.target_value, some "dept/month_per_day") ∧
      ∀ s ∈ dbResolver.plan_targets,
        tier4Match dbResolver 7 (firstOfMonth ⟨2025, 8, 15⟩) "indicators_done" s = true →
        s.created_at ≤ r.created_at :=
  ((((effective_daily_value_precedence dbResolver 7 ⟨2025, 8, 15⟩
    "indicators_done").2 (by decide)).2 (by decide)).2 (by decide)).1 (by decide)

theorem filter_map_pres {α : Type} (g : α → α) (p : α → Bool)
    (hp : ∀ x, p (g x) = p x) :
    ∀ l : List α, (l.map g).filter p = (l.filter p).map g := by
  intro l
  induction l with
  | nil => rfl
  | cons x xs ih =>
    by_cases hx : p x
    · simp [List.filter_cons, hp, hx, ih]
    · simp [List.filter_cons, hp, hx, ih]

theorem dayUpsertMatch_set_value (metric : String) (day : Date)
    (dep op : Option Nat) (v : Nat) (x : TargetRow) :
    dayUpsertMatch metric day dep op { x with target_value := v }
      = dayUpsertMatch metric day dep op x := rfl

theorem monthUpsertMatch_set_value (tm metric : String) (month1 : Date)
    (dep op : Option Nat) (v : Nat) (x : TargetRow) :
    monthUpsertMatch tm metric month1 dep op { x with target_value := v }
      = monthUpsertMatch tm metric month1 dep op x := rfl

theorem upsert_day_update_branch (db : DB) (metric : String) (day : Date)
    (value : Nat) (cb dep op : Option Nat) (now : Nat) (r : TargetRow)
    (hf : db.plan_targets.find? (dayUpsertMatch metric day dep op) = some r) :
    (upsert_day_target db metric day value cb dep op now).1.plan_targets
      = db.plan_targets.map (fun x =>
          if dayUpsertMatch metric day dep op x then { x with target_value := value } else x) := by
  simp [upsert_day_target, hf]

theorem upsert_day_insert_branch (db : DB) (metric : String) (day : Date)
    (value : Nat) (cb dep op : Option Nat) (now : Nat)
    (hf : db.plan_targets.find? (dayUpsertMatch metric day dep op) = none) :
    (upsert_day_target db metric day value cb dep op now).1.plan_targets
      = db.plan_targets ++
        [⟨db.next_id, "day", "total", metric, day, value, dep, op, cb, now, now⟩] := by
  simp [upsert_day_target, hf]

theorem dayUpsertMatch_new (metric : String) (day : Date) (dep op cb : Option Nat)
    (nid value now : Nat) (hsubj : op.isSome = true → dep = none) :
    dayUpsertMatch metric day dep op
      ⟨nid, "day", "total", metric, day, value, dep, op, cb, now, now⟩ = true := by
  cases op with
  | none => simp [dayUpsertMatch]
  | some o =>
    have hdep : dep = none := hsubj rfl
    subst hdep
    simp [dayUpsertMatch]

/-- C6: upsert_day_target is idempotent on the natural key
(subject, metric, day period_type, total mode, day): starting from a store
satisfying the unique-index invariant, two identical calls leave exactly one
row with that natural key, and its target_value is the given value. -/
theorem upsert_day_target_idempotent (db : DB) (metric : String) (day : Date)
    (value : Nat) (cb dep op : Option Nat) (now1 now2 : Nat)
    (hsubj : op.isSome = true → dep = none)
    (huniq : (db.plan_targets.filter (dayUpsertMatch metric day dep op)).length ≤ 1) :
    (((upsert_day_target (upsert_day_target db metric day value cb dep op now1).1
        metric day value cb dep op now2).1.plan_targets.filter
        (dayUpsertMatch metric day dep op)).length = 1) ∧
    ∀ r ∈ ((upsert_day_target (upsert_day_target db metric day value cb dep op now1).1
        metric day value cb dep op now2).1.plan_targets.filter
        (dayUpsertMatch metric day dep op)), r.target_value = value := by
  have hpres : ∀ x, dayUpsertMatch metric day dep op
      (if dayUpsertMatch metric day dep op x then { x with target_value := value } else x)
      = dayUpsertMatch metric day dep op x := by
    intro x
    by_cases hx : dayUpsertMatch metric day dep op x <;>
      simp [hx, dayUpsertMatch_set_value]
  have hsetv : ∀ x, dayUpsertMatch metric day dep op x = true →
      (if dayUpsertMatch metric day dep op x then { x with target_value := value } else x).target_value
        = value := by
    intro x hx
    simp [hx]
  cases hf : db.plan_targets.find? (dayUpsertMatch metric day dep op) with
  | some r =>
    have hdb1 := upsert_day_update_branch db metric day value cb dep op now1 r hf
    have hex2 : ∃ x ∈ (upsert_day_target db metric day value cb dep op now1).1.plan_targets,
        dayUpsertMatch metric day dep op x = true := by
      rw [hdb1]
      refine ⟨_, List.mem_map_of_mem _ (List.mem_of_find?_eq_some hf), ?_⟩
      rw [hpres r]
      exact List.find?_some hf
    have hsome2 := List.find?_isSome.mpr hex2
    obtain ⟨r2, hf2⟩ := Option.isSome_iff_exists.mp hsome2
    have hdb2 := upsert_day_update_branch _ metric day value cb dep op now2 r2 hf2
    rw [hdb2, hdb1, filter_map_pres _ _ hpres, filter_map_pres _ _ hpres]
    have hrmem : r ∈ db.plan_targets.filter (dayUpsertMatch metric day dep op) :=
      List.mem_filter.mpr ⟨List.mem_of_find?_eq_some hf, List.find?_some hf⟩
    have hlen1 : 1 ≤ (db.plan_targets.filter (dayUpsertMatch metric day dep op)).length :=
      List.length_pos.mpr (fun hc => by rw [hc] at hrmem; simp at hrmem)
    constructor
    · simp only [List.length_map]
      omega
    · intro t ht
      obtain ⟨u, hu, htu⟩ := List.mem_map.mp ht
      obtain ⟨x, hx, hxu⟩ := List.mem_map.mp hu
      have hpx : dayUpsertMatch metric day dep op x = true := (List.mem_filter.mp hx).2
      have hpu : dayUpsertMatch metric day dep op u = true := by
        rw [← hxu, hpres x]
        exact hpx
      rw [← htu]
      exact hsetv u hpu
  | none =>
    have hobj : dayUpsertMatch metric day dep op
        ⟨db.next_id, "day", "total", metric, day, value, dep, op, cb, now1, now1⟩ = true :=
      dayUpsertMatch_new metric day dep op cb db.next_id value now1 hsubj
    have hdb1 := upsert_day_insert_branch db metric day value cb dep op now1 hf
    have hfilter0 : db.plan_targets.filter (dayUpsertMatch metric day dep op) = [] :=
      List.filter_eq_nil_iff.mpr (by
        intro x hx
        have := List.find?_eq_none.mp hf x hx
        simpa using this)
    have hex2 : ∃ x ∈ (upsert_day_target db metric day value cb dep op now1).1.plan_targets,
        dayUpsertMatch metric day dep op x = true := by
      rw [hdb1]
      exact ⟨_, List.mem_append_right _ (List.mem_singleton_self _), hobj⟩
    obtain ⟨r2, hf2⟩ := Option.isSome_iff_exists.mp (List.find?_isSome.mpr hex2)
    have hdb2 := upsert_day_update_branch _ metric day value cb dep op now2 r2 hf2
    rw [hdb2, hdb1, filter_map_pres _ _ hpres, List.filter_append, hfilter0,
      List.nil_append, List.filter_cons]
    rw [if_pos hobj]
    refine ⟨by simp, ?_⟩
    intro t ht
    simp only [List.filter_nil, List.map_cons, List.map_nil, List.mem_singleton] at ht
    rw [ht]
    exact hsetv _ hobj

/-- Witness for C6: two identical set-day upserts for operator 7 on an empty
store leave one matching row valued 30. -/
theorem upsert_day_target_idempotent_witness :
    ((upsert_day_target (upsert_day_target ⟨[7], [], [], [], [], 1⟩
        "indicators_done" ⟨2025, 8, 15⟩ 30 none none (some 7) 50).1
        "indicators_done" ⟨2025, 8, 15⟩ 30 none none (some 7) 60).1.plan_targets.filter
        (dayUpsertMatch "indicators_done" ⟨2025, 8, 15⟩ none (some 7))).length = 1 ∧
    ∀ r ∈ (upsert_day_target (upsert_day_target ⟨[7], [], [], [], [], 1⟩
        "indicators_done" ⟨2025, 8, 15⟩ 30 none none (some 7) 50).1
        "indicators_done" ⟨2025, 8, 15⟩ 30 none none (some 7) 60).1.plan_targets.filter
        (dayUpsertMatch "indicators_done" ⟨2025, 8, 15⟩ none (some 7)), r.target_value = 30 :=
  upsert_day_target_idempotent ⟨[7], [], [], [], [], 1⟩ "indicators_done"
    ⟨2025, 8, 15⟩ 30 none none (some 7) 50 60 (by decide) (by decide)

theorem forall2_map_self {α : Type} (P : α → α → Prop) (g : α → α)
    (h : ∀ x, P x (g x)) : ∀ l : List α, List.Forall₂ P l (l.map g) := by
  intro l
  induction l with
  | nil => simp
  | cons x xs ih => exact List.Forall₂.cons (h x) ih

theorem upsert_month_update_branch (db : DB) (metric : String) (month1 : Date)
    (value : Nat) (cb dep op : Option Nat) (tm : String) (now : Nat) (r : TargetRow)
    (hf : db.plan_targets.find? (monthUpsertMatch tm metric month1 dep op) = some r) :
    (upsert_month_target db metric month1 value cb dep op tm now).1
      = { db with plan_targets := db.plan_targets.map (fun x =>
          if monthUpsertMatch tm metric month1 dep op x then
            { x with target_value := value } else x) } := by
  simp [upsert_month_target, hf]

/-- Store with a single stale operator month/per_day row whose created_at and
updated_at are both 5. -/
def dbStale : DB :=
  ⟨[7], [], [],
   [⟨1, "month", "per_day", "indicators_done", ⟨2025, 8, 1⟩, 20, none, some 7,
     none, 5, 5⟩], [], 2⟩

/-- Counterexample for C7: the UPDATE branch of upsert_month_target run at
transaction time 99 leaves updated_at at its old value 5 — updated_at is not
refreshed on update (the statement sets only target_value and the column has
no onupdate clause or trigger). -/
theorem upsert_month_updated_at_stale_counterexample :
    ((upsert_month_target dbStale "indicators_done" ⟨2025, 8, 1⟩ 30 none none
        (some 7) "per_day" 99).1.plan_targets.map (fun r => r.updated_at)) = [5] ∧
    (5 : Nat) ≠ 99 := by
  exact ⟨rfl, by decide⟩

/-- C7 amended: on the update branch of upsert_month_target (the natural key
already has a row), only target_value is modified; updated_at — like
created_at, created_by, and every other field — is left unchanged, and a
non-matching row is untouched; created_at, updated_at and created_by are
written only by the insert branch. -/
theorem upsert_month_update_frame (db : DB) (metric : String) (month1 : Date)
    (value : Nat) (cb dep op : Option Nat) (tm : String) (now : Nat)
    (hhit : (db.plan_targets.find? (monthUpsertMatch tm metric month1 dep op)).isSome = true) :
    (upsert_month_target db metric month1 value cb dep op tm now).1.plan_targets.length
      = db.plan_targets.length ∧
    (upsert_month_target db metric month1 value cb dep op tm now).1.next_id = db.next_id ∧
    List.Forall₂ (fun r r2 : TargetRow =>
      r2.id = r.id ∧ r2.period_type = r.period_type ∧ r2.target_mode = r.target_mode ∧
      r2.metric = r.metric ∧ r2.period_date = r.period_date ∧
      r2.department_id = r.department_id ∧ r2.operator_id = r.operator_id ∧
      r2.created_by = r.created_by ∧ r2.created_at = r.created_at ∧
      r2.updated_at = r.updated_at ∧
      (monthUpsertMatch tm metric month1 dep op r = true → r2.target_value = value) ∧
      (monthUpsertMatch tm metric month1 dep op r = false → r2 = r))
      db.plan_targets
      (upsert_month_target db metric month1 value cb dep op tm now).1.plan_targets := by
  obtain ⟨r, hf⟩ := Option.isSome_iff_exists.mp hhit
  have hupd := upsert_month_update_branch db metric month1 value cb dep op tm now r hf
  rw [hupd]
  refine ⟨by simp, by simp, ?_⟩
  refine forall2_map_self _ _ ?_ db.plan_targets
  intro x
  by_cases hx : monthUpsertMatch tm metric month1 dep op x
  · rw [if_pos hx]
    exact ⟨rfl, rfl, rfl, rfl, rfl, rfl, rfl, rfl, rfl, rfl,
      fun _ => rfl, fun hc => absurd hx (by simp [hc])⟩
  · rw [if_neg hx]
    exact ⟨rfl, rfl, rfl, rfl, rfl, rfl, rfl, rfl, rfl, rfl,
      fun hc => absurd hc hx, fun _ => rfl⟩

/-- Witness for the amended C7 at the stale store: the single matching row
keeps id, scope, created_at and updated_at, and gets target_value 30. -/
theorem upsert_month_update_frame_witness :
    (upsert_month_target dbStale "indicators_done" ⟨2025, 8, 1⟩ 30 none none
        (some 7) "per_day" 99).1.plan_targets.length = dbStale.plan_targets.length ∧
    (upsert_month_target dbStale "indicators_done" ⟨2025, 8, 1⟩ 30 none none
        (some 7) "per_day" 99).1.next_id = dbStale.next_id ∧
    List.Forall₂ (fun r r2 : TargetRow =>
      r2.id = r.id ∧ r2.period_type = r.period_type ∧ r2.target_mode = r.target_mode ∧
      r2.metric = r.metric ∧ r2.period_date = r.period_date ∧
      r2.department_id = r.department_id ∧ r2.operator_id = r.operator_id ∧
      r2.created_by = r.created_by ∧ r2.created_at = r.created_at ∧
      r2.updated_at = r.updated_at ∧
      (monthUpsertMatch "per_day" "indicators_done" ⟨2025, 8, 1⟩ none (some 7) r = true →
        r2.target_value = 30) ∧
      (monthUpsertMatch "per_day" "indicators_done" ⟨2025, 8, 1⟩ none (some 7) r = false →
        r2 = r))
      dbStale.plan_targets
      (upsert_month_target dbStale "indicators_done" ⟨2025, 8, 1⟩ 30 none none
        (some 7) "per_day" 99).1.plan_targets :=
  upsert_month_update_frame dbStale "indicators_done" ⟨2025, 8, 1⟩ 30 none none
    (some 7) "per_day" 99 (by decide)

/-- A concurrent writer's row on the same operator-scoped natural key
(operator 7, indicators_done, day/total, 2025-08-15). -/
def rowInterloper : TargetRow :=
  ⟨9, "day", "total", "indicators_done", ⟨2025, 8, 15⟩, 77, none, some 7, none, 5, 5⟩

/-- Counterexample for C9: on an empty store, with a concurrent insert of the
same natural key landing between the missed UPDATE and the INSERT, the
repository upsert surfaces the unique-constraint error at once — it performs
no retry — whereas the spec-modelled once-retrying upsert succeeds by
re-attempting the UPDATE against the concurrently inserted row. -/
theorem upsert_day_no_retry_counterexample :
    upsert_day_target_raced ⟨[7], [], [], [], [], 1⟩ "indicators_done" ⟨2025, 8, 15⟩
      30 none none (some 7) 50 rowInterloper = .error () ∧
    upsert_day_target_specRetry ⟨[7], [], [], [], [], 1⟩ "indicators_done" ⟨2025, 8, 15⟩
      30 none none (some 7) 50 rowInterloper
      = .ok (⟨[7], [], [],
          [⟨9, "day", "total", "indicators_done", ⟨2025, 8, 15⟩, 30, none, some 7,
            none, 5, 5⟩], [], 1⟩, 9) :=
  ⟨rfl, rfl⟩

/-- C9 amended: when the UPDATE of a day upsert matches no row and the INSERT
then violates the natural-key unique constraint because of a concurrent
writer, the upsert performs no retry: the conflict is surfaced to the caller
as an error (an unhandled 5xx) the first time, never dropped. -/
theorem upsert_day_raced_conflict_error (db : DB) (metric : String) (day : Date)
    (value : Nat) (cb dep op : Option Nat) (now : Nat) (interloper : TargetRow)
    (hmiss : db.plan_targets.find? (dayUpsertMatch metric day dep op) = none)
    (hconf : ((db.plan_targets ++ [interloper]).any
      (uniqueConflict ⟨db.next_id, "day", "total", metric, day, value, dep, op,
        cb, now, now⟩)) = true) :
    upsert_day_target_raced db metric day value cb dep op now interloper
      = .error () := by
  simp [upsert_day_target_raced, hmiss, hconf]

/-- Witness for the amended C9 at the concrete raced store. -/
theorem upsert_day_raced_conflict_error_witness :
    upsert_day_target_raced ⟨[7], [], [], [], [], 1⟩ "indicators_done" ⟨2025, 8, 15⟩
      40 none none (some 7) 60 rowInterloper = .error () :=
  upsert_day_raced_conflict_error ⟨[7], [], [], [], [], 1⟩ "indicators_done"
    ⟨2025, 8, 15⟩ 40 none none (some 7) 60 rowInterloper (by decide) (by decide)

theorem validateSetMonthIn_subject_error (bm : SetMonthIn)
    (h : bm.department_id.isSome = bm.operator_id.isSome) :
    ∃ e, validateSetMonthIn bm = .error e := by
  have hcond : ((bm.department_id.isNone && bm.operator_id.isNone) ||
      (bm.department_id.isSome && bm.operator_id.isSome)) = true := by
    cases hd : bm.department_id <;> cases ho : bm.operator_id <;> simp_all
  unfold validateSetMonthIn
  split_ifs with h1 h2 h3
  · exact ⟨_, rfl⟩
  · exact ⟨_, rfl⟩
  · exact ⟨_, rfl⟩
  · exact ⟨_, rfl⟩

theorem validateSetMonthIn_targets_error (bm : SetMonthIn)
    (hp : bm.per_day = none) (ht : bm.total = none) :
    ∃ e, validateSetMonthIn bm = .error e := by
  unfold validateSetMonthIn
  split_ifs with h1 h2 h3 h4 h5
  · exact ⟨_, rfl⟩
  · exact ⟨_, rfl⟩
  · exact ⟨_, rfl⟩
  · exact ⟨_, rfl⟩
  · exact ⟨_, rfl⟩
  · exact absurd (by simp [hp, ht] : (bm.per_day.isNone && bm.total.isNone) = true)
      (by simpa using h5)

theorem validateSetDayIn_subject_error (bd : SetDayIn)
    (h : bd.department_id.isSome = bd.operator_id.isSome) :
    ∃ e, validateSetDayIn bd = .error e := by
  have hcond : ((bd.department_id.isNone && bd.operator_id.isNone) ||
      (bd.department_id.isSome && bd.operator_id.isSome)) = true := by
    cases hd : bd.department_id <;> cases ho : bd.operator_id <;> simp_all
  unfold validateSetDayIn
  split_ifs with h1 h2
  · exact ⟨_, rfl⟩
  · exact ⟨_, rfl⟩
  · exact ⟨_, rfl⟩

/-- C8: a set-month or set-day request with both subject fields or neither
fails pydantic validation with a 422 and leaves the store untouched, and so
does a set-month request supplying neither per_day nor total. -/
theorem set_endpoints_validation_rejects (db : DB) (user : Option Nat)
    (bm : SetMonthIn) (bd : SetDayIn) (now1 now2 : Nat) :
    (bm.department_id.isSome = bm.operator_id.isSome →
      set_month_endpoint db user bm now1 = (db, .error 422)) ∧
    (bm.per_day = none → bm.total = none →
      set_month_endpoint db user bm now1 = (db, .error 422)) ∧
    (bd.department_id.isSome = bd.operator_id.isSome →
      set_day_endpoint db user bd now2 = (db, .error 422)) := by
  refine ⟨fun h => ?_, fun hp ht => ?_, fun h => ?_⟩
  · obtain ⟨e, he⟩ := validateSetMonthIn_subject_error bm h
    simp [set_month_endpoint, he]
  · obtain ⟨e, he⟩ := validateSetMonthIn_targets_error bm hp ht
    simp [set_month_endpoint, he]
  · obtain ⟨e, he⟩ := validateSetDayIn_subject_error bd h
    simp [set_day_endpoint, he]

/-- Witness for C8: a month body with both subject ids set and a day body
with neither are both rejected with 422 on an untouched store. -/
theorem set_endpoints_validation_rejects_witness :
    ((⟨⟨2025, 8, 15⟩, "indicators_done", some 3, some 7, some 20, none⟩
        : SetMonthIn).department_id.isSome
      = (⟨⟨2025, 8, 15⟩, "indicators_done", some 3, some 7, some 20, none⟩
        : SetMonthIn).operator_id.isSome) ∧
    ((⟨⟨2025, 8, 15⟩, "indicators_done", none, none, 4⟩
        : SetDayIn).department_id.isSome
      = (⟨⟨2025, 8, 15⟩, "indicators_done", none, none, 4⟩
        : SetDayIn).operator_id.isSome) ∧
    set_month_endpoint ⟨[7], [3], [], [], [], 1⟩ (some 7)
      ⟨⟨2025, 8, 15⟩, "indicators_done", some 3, some 7, some 20, none⟩ 50
      = (⟨[7], [3], [], [], [], 1⟩, .error 422) ∧
    set_day_endpoint ⟨[7], [3], [], [], [], 1⟩ (some 7)
      ⟨⟨2025, 8, 15⟩, "indicators_done", none, none, 4⟩ 50
      = (⟨[7], [3], [], [], [], 1⟩, .error 422) :=
  ⟨by decide, by decide,
   (set_endpoints_validation_rejects ⟨[7], [3], [], [], [], 1⟩ (some 7)
      ⟨⟨2025, 8, 15⟩, "indicators_done", some 3, some 7, some 20, none⟩
      ⟨⟨2025, 8, 15⟩, "indicators_done", none, none, 4⟩ 50 50).1 (by decide),
   ((set_endpoints_validation_rejects ⟨[7], [3], [], [], [], 1⟩ (some 7)
      ⟨⟨2025, 8, 15⟩, "indicators_done", some 3, some 7, some 20, none⟩
      ⟨⟨2025, 8, 15⟩, "indicators_done", none, none, 4⟩ 50 50).2).2 (by decide)⟩

/-- Under the fixed-up repo module, over an inclusive range with
date_from <= date_to, evaluate_daily_fixedImports
builds one breakdown entry per calendar day, each independently resolving
that day's actual, target and source; the aggregate actual is the sum of the
per-day actuals, the aggregate target is the sum of the resolved non-null
per-day targets except that a zero sum is reported as none, and a zero
target sum classifies as no_target whatever the aggregate actual. -/
theorem evaluate_daily_period_aggregation (db : DB) (op : Nat) (metric : String)
    (df dt : Date) (h : toOrd df ≤ toOrd dt) :
    ∃ out : EvaluatePeriodOut,
      evaluate_daily_fixedImports db op metric none (some df) (some dt) = .ok (.period out) ∧
      out.days = toOrd dt - toOrd df + 1 ∧
      out.daily_breakdown.length = toOrd dt - toOrd df + 1 ∧
      (∀ i, ∀ hi : i < out.daily_breakdown.length,
        out.daily_breakdown.get ⟨i, hi⟩ = evalOneDay_fixedImports db op metric (addDays df i)) ∧
      (∀ i, ∀ hi : i < out.daily_breakdown.length,
        (out.daily_breakdown.get ⟨i, hi⟩).actual
          = actual_for_range_fixedImports db op (addDays df i) (addDays df i) metric ∧
        (out.daily_breakdown.get ⟨i, hi⟩).target
          = (effective_daily_value_fixedImports db op (addDays df i) metric).1 ∧
        (out.daily_breakdown.get ⟨i, hi⟩).source
          = (effective_daily_value_fixedImports db op (addDays df i) metric).2) ∧
      out.actual = (out.daily_breakdown.map (fun b => b.actual)).sum ∧
      out.target = (if (out.daily_breakdown.filterMap (fun b => b.target)).sum = 0
        then none else some ((out.daily_breakdown.filterMap (fun b => b.target)).sum)) ∧
      ((out.daily_breakdown.filterMap (fun b => b.target)).sum = 0 →
        out.target = none ∧ out.status = "no_target") := by
  have hnotlt : ¬ (toOrd dt < toOrd df) := not_lt.mpr h
  simp only [evaluate_daily_fixedImports, Option.isSome_none, Option.isSome_some, Bool.false_and,
    Bool.false_or, Bool.false_eq_true, if_false, hnotlt, ite_false]
  refine ⟨_, rfl, rfl, by simp, ?_, ?_, rfl, ?_, ?_⟩
  · intro i hi
    simp only [List.get_eq_getElem, List.getElem_map, List.getElem_range]
  · intro i hi
    simp only [List.get_eq_getElem, List.getElem_map, List.getElem_range]
    exact ⟨rfl, rfl, rfl⟩
  · have key : ∀ S : Nat, (if 0 < S then some S else none)
        = (if S = 0 then none else some S) := by
      intro S
      rcases Nat.eq_zero_or_pos S with h0 | h0
      · rw [if_neg (by omega), if_pos h0]
      · rw [if_pos h0, if_neg (by omega)]
    exact key _
  · intro h0
    have key2 : ∀ S : Nat, S = 0 →
        (if 0 < S then some S else none) = (none : Option Nat) := by
      intro S hS
      rw [if_neg (by omega)]
    have key3 : ∀ (m : String) (a : Int) (S : Nat), S = 0 →
        (classify m a ((if 0 < S then some S else none).map (fun n => (n : Int)))).1
          = "no_target" := by
      intro m a S hS
      rw [if_neg (by omega)]
      rfl
    exact ⟨key2 _ h0, key3 metric _ _ h0⟩

/-- Store of the period witness: one call on 2025-08-02 and no targets. -/
def dbPeriod : DB := ⟨[7], [], [], [], [⟨7, ⟨2025, 8, 2⟩, 5, 1, 2, none⟩], 1⟩

/-- Example over the range 2025-08-01 .. 2025-08-03. -/
theorem evaluate_daily_period_aggregation_witness :
    ∃ out : EvaluatePeriodOut,
      evaluate_daily_fixedImports dbPeriod 7 "indicators_done" none (some ⟨2025, 8, 1⟩)
        (some ⟨2025, 8, 3⟩) = .ok (.period out) ∧
      out.days = toOrd ⟨2025, 8, 3⟩ - toOrd ⟨2025, 8, 1⟩ + 1 ∧
      out.daily_breakdown.length = toOrd ⟨2025, 8, 3⟩ - toOrd ⟨2025, 8, 1⟩ + 1 ∧
      (∀ i, ∀ hi : i < out.daily_breakdown.length,
        out.daily_breakdown.get ⟨i, hi⟩
          = evalOneDay_fixedImports dbPeriod 7 "indicators_done" (addDays ⟨2025, 8, 1⟩ i)) ∧
      (∀ i, ∀ hi : i < out.daily_breakdown.length,
        (out.daily_breakdown.get ⟨i, hi⟩).actual
          = actual_for_range_fixedImports dbPeriod 7 (addDays ⟨2025, 8, 1⟩ i)
              (addDays ⟨2025, 8, 1⟩ i) "indicators_done" ∧
        (out.daily_breakdown.get ⟨i, hi⟩).target
          = (effective_daily_value_fixedImports dbPeriod 7 (addDays ⟨2025, 8, 1⟩ i) "indicators_done").1 ∧
        (out.daily_breakdown.get ⟨i, hi⟩).source
          = (effective_daily_value_fixedImports dbPeriod 7 (addDays ⟨2025, 8, 1⟩ i) "indicators_done").2) ∧
      out.actual = (out.daily_breakdown.map (fun b => b.actual)).sum ∧
      out.target = (if (out.daily_breakdown.filterMap (fun b => b.target)).sum = 0
        then none else some ((out.daily_breakdown.filterMap (fun b => b.target)).sum)) ∧
      ((out.daily_breakdown.filterMap (fun b => b.target)).sum = 0 →
        out.target = none ∧ out.status = "no_target") :=
  evaluate_daily_period_aggregation dbPeriod 7 "indicators_done" ⟨2025, 8, 1⟩
    ⟨2025, 8, 3⟩ (by decide)

theorem zero_null_flip (S : Nat) :
    (if 0 < S then some S else none) = (if S = 0 then none else some S) := by
  rcases Nat.eq_zero_or_pos S with h0 | h0
  · rw [if_neg (by omega), if_pos h0]
  · rw [if_pos h0, if_neg (by omega)]

/-- Under the fixed-up repo module, evaluate_monthly_fixedImports resolves
the month target by the coarser three-step
precedence — an operator month/total row for the exact month, else a
department month/total row (the most recently created among the operator's
departments), else the sum of the per-day effective daily targets over every
calendar day of the month, a zero sum reported as a null target. -/
theorem evaluate_monthly_precedence (db : DB) (op : Nat) (month : Date)
    (metric : String) :
    ((∃ r ∈ db.plan_targets, monthTotalOpMatch op (firstOfMonth month) metric r = true) →
      ∃ r ∈ db.plan_targets, monthTotalOpMatch op (firstOfMonth month) metric r = true ∧
        (evaluate_monthly_fixedImports db op month metric).target = some r.target_value ∧
        (evaluate_monthly_fixedImports db op month metric).source = some "operator/month_total") ∧
    ((∀ r ∈ db.plan_targets, ¬ monthTotalOpMatch op (firstOfMonth month) metric r = true) →
      ((∃ r ∈ db.plan_targets, monthTotalDeptMatch db op (firstOfMonth month) metric r = true) →
        ∃ r ∈ db.plan_targets,
          monthTotalDeptMatch db op (firstOfMonth month) metric r = true ∧
          (evaluate_monthly_fixedImports db op month metric).target = some r.target_value ∧
          (evaluate_monthly_fixedImports db op month metric).source = some "dept/month_total" ∧
          ∀ s ∈ db.plan_targets,
            monthTotalDeptMatch db op (firstOfMonth month) metric s = true →
            s.created_at ≤ r.created_at) ∧
      ((∀ r ∈ db.plan_targets, ¬ monthTotalDeptMatch db op (firstOfMonth month) metric r = true) →
        (evaluate_monthly_fixedImports db op month metric).target
          = (if ((monthDayList month).filterMap
                (fun d => (effective_daily_value_fixedImports db op d metric).1)).sum = 0 then none
             else some (((monthDayList month).filterMap
                (fun d => (effective_daily_value_fixedImports db op d metric).1)).sum)) ∧
        (evaluate_monthly_fixedImports db op month metric).source = none)) := by
  constructor
  · intro hex
    obtain ⟨r0, h0⟩ := Option.isSome_iff_exists.mp (List.find?_isSome.mpr hex)
    exact ⟨r0, List.mem_of_find?_eq_some h0, List.find?_some h0,
      by simp only [evaluate_monthly_fixedImports, h0], by simp only [evaluate_monthly_fixedImports, h0]⟩
  · intro hall1
    have hf1 : db.plan_targets.find? (monthTotalOpMatch op (firstOfMonth month) metric) = none :=
      List.find?_eq_none.mpr hall1
    constructor
    · intro hex
      obtain ⟨r, hr, hm2⟩ := hex
      have hmem : r ∈ db.plan_targets.filter (monthTotalDeptMatch db op (firstOfMonth month) metric) :=
        List.mem_filter.mpr ⟨hr, hm2⟩
      have hnil : db.plan_targets.filter (monthTotalDeptMatch db op (firstOfMonth month) metric) ≠ [] :=
        fun hc => by rw [hc] at hmem; simp at hmem
      have hsome : (maxByCreated (db.plan_targets.filter
          (monthTotalDeptMatch db op (firstOfMonth month) metric))).isSome = true := by
        cases hcase : maxByCreated (db.plan_targets.filter
            (monthTotalDeptMatch db op (firstOfMonth month) metric)) with
        | none => exact absurd (maxByCreated_eq_none.mp hcase) hnil
        | some b => rfl
      obtain ⟨r0, h0⟩ := Option.isSome_iff_exists.mp hsome
      have hr0 := List.mem_filter.mp (maxByCreated_mem h0)
      refine ⟨r0, hr0.1, hr0.2, by simp only [evaluate_monthly_fixedImports, hf1, h0],
        by simp only [evaluate_monthly_fixedImports, hf1, h0], ?_⟩
      intro s hs hms
      exact maxByCreated_ge h0 s (List.mem_filter.mpr ⟨hs, hms⟩)
    · intro hall2
      have hf2 : db.plan_targets.filter (monthTotalDeptMatch db op (firstOfMonth month) metric) = [] :=
        List.filter_eq_nil_iff.mpr hall2
      have hm2 : maxByCreated (db.plan_targets.filter
          (monthTotalDeptMatch db op (firstOfMonth month) metric)) = none := by
        rw [hf2]
        rfl
      constructor
      · have hred : (evaluate_monthly_fixedImports db op month metric).target
            = (if 0 < ((monthDayList month).filterMap
                (fun d => (effective_daily_value_fixedImports db op d metric).1)).sum then
               some (((monthDayList month).filterMap
                (fun d => (effective_daily_value_fixedImports db op d metric).1)).sum) else none) := by
          simp only [evaluate_monthly_fixedImports, hf1, hm2]
        rw [hred]
        exact zero_null_flip _
      · simp only [evaluate_monthly_fixedImports, hf1, hm2]

/-- Example: the resolver store has no month/total rows, so the
monthly target for August 2025 falls back to the per-day sum. -/
theorem evaluate_monthly_precedence_witness :
    (evaluate_monthly_fixedImports dbResolver 7 ⟨2025, 8, 15⟩ "indicators_done").target
      = (if ((monthDayList ⟨2025, 8, 15⟩).filterMap
            (fun d => (effective_daily_value_fixedImports dbResolver 7 d "indicators_done").1)).sum = 0
         then none
         else some (((monthDayList ⟨2025, 8, 15⟩).filterMap
            (fun d => (effective_daily_value_fixedImports dbResolver 7 d "indicators_done").1)).sum)) ∧
    (evaluate_monthly_fixedImports dbResolver 7 ⟨2025, 8, 15⟩ "indicators_done").source = none :=
  ((evaluate_monthly_precedence dbResolver 7 ⟨2025, 8, 15⟩ "indicators_done").2
    (by decide)).2 (by decide)

/-- The resolver store extended with an operator/day target of 30 for
2025-08-15, so that tier 1 answers before the broken department tiers. -/
def dbResolverOpDay : DB :=
  ⟨[7], [3], [(7, 3)],
   [⟨1, "month", "per_day", "indicators_done", ⟨2025, 8, 1⟩, 20, some 3, none,
     none, 10, 10⟩,
    ⟨2, "day", "total", "indicators_done", ⟨2025, 8, 15⟩, 30, none, some 7,
     none, 11, 11⟩], [], 3⟩

/-- Store with an operator-scoped month/total target of 100 for August 2025
and no calls. -/
def dbMonthTot : DB :=
  ⟨[7], [3], [(7, 3)],
   [⟨1, "month", "total", "indicators_done", ⟨2025, 8, 1⟩, 100, none, some 7,
     none, 10, 10⟩], [], 2⟩

/-- Store with a department-scoped month/total target of 90 for August 2025
(operator 7 belongs to department 3) and no calls. -/
def dbDeptTot : DB :=
  ⟨[7], [3], [(7, 3)],
   [⟨1, "month", "total", "indicators_done", ⟨2025, 8, 1⟩, 90, some 3, none,
     none, 10, 10⟩], [], 2⟩

/-- C1 (code bug): because repo.py never brings t_operator_departments into
scope, effective_daily_value raises NameError whenever tiers 1-2 both miss —
here on a store whose only target is the department month/per_day default —
instead of returning (20, dept/month_per_day) as the claim states; the same
body under the fixed-up import does return (20, dept/month_per_day), and a
tier-1 hit still answers (30, operator/day) as claimed. -/
theorem effective_daily_value_missing_import_bug :
    effective_daily_value dbResolver 7 ⟨2025, 8, 15⟩ "indicators_done"
      = .error .operatorDepartmentsTable ∧
    effective_daily_value_fixedImports dbResolver 7 ⟨2025, 8, 15⟩ "indicators_done"
      = (some 20, some "dept/month_per_day") ∧
    effective_daily_value dbResolverOpDay 7 ⟨2025, 8, 15⟩ "indicators_done"
      = .ok (some 30, some "operator/day") :=
  ⟨rfl, rfl, rfl⟩

/-- C10 (code bug): the source never reaches its (None, None) return — with
no matching target at all it raises NameError at tier 3 — while the claimed
both-null pair is what the body under the fixed-up import produces, and the
reachable tier-1/2 returns are pairs that are both non-null with a tier
label, as the claim states. -/
theorem effective_daily_value_pair_unreachable_bug :
    effective_daily_value dbResolver 7 ⟨2025, 8, 15⟩ "stages_done"
      = .error .operatorDepartmentsTable ∧
    effective_daily_value_fixedImports dbResolver 7 ⟨2025, 8, 15⟩ "stages_done"
      = (none, none) ∧
    effective_daily_value dbResolverOpDay 7 ⟨2025, 8, 15⟩ "indicators_done"
      = .ok (some 30, some "operator/day") ∧
    ((some 30 : Option Nat).isSome ∧ (some "operator/day" : Option String).isSome ∧
      ("operator/day" = "operator/day" ∨ "operator/day" = "operator/month_per_day" ∨
       "operator/day" = "dept/day" ∨ "operator/day" = "dept/month_per_day")) :=
  ⟨rfl, rfl, rfl, rfl, rfl, Or.inl rfl⟩

/-- C4 (code bug): every evaluate_daily request that passes the 400 checks
dies in its first actual_for_range call with NameError (func is not in
repo.py's scope) and surfaces as a 500 — the breakdown and the aggregation
never run — while under the fixed-up imports the same period request yields
the claimed per-day breakdown with summed actuals, a zero target sum
reported as a null target, and status no_target despite a nonzero aggregate
actual. -/
theorem evaluate_daily_missing_import_bug :
    evaluate_daily dbPeriod 7 "indicators_done" none (some ⟨2025, 8, 1⟩)
      (some ⟨2025, 8, 3⟩) = .error (.nameError .funcCalls) ∧
    evaluate_daily dbPeriod 7 "indicators_done" (some ⟨2025, 8, 2⟩) none none
      = .error (.nameError .funcCalls) ∧
    evaluate_daily_fixedImports dbPeriod 7 "indicators_done" none
      (some ⟨2025, 8, 1⟩) (some ⟨2025, 8, 3⟩)
      = .ok (.period ⟨7, ⟨2025, 8, 1⟩, ⟨2025, 8, 3⟩, "indicators_done", 5, none,
          "no_target", none, 3,
          [⟨7, ⟨2025, 8, 1⟩, "indicators_done", 0, none, none, "no_target", none⟩,
           ⟨7, ⟨2025, 8, 2⟩, "indicators_done", 5, none, none, "no_target", none⟩,
           ⟨7, ⟨2025, 8, 3⟩, "indicators_done", 0, none, none, "no_target", none⟩]⟩) :=
  ⟨rfl, rfl, rfl⟩

/-- C5 (code bug): evaluate_monthly computes the month actual first
(routes_eval.py:118), so every call raises NameError from actual_for_range
and surfaces as a 500 — the three-step monthly precedence never executes —
while under the fixed-up imports the same requests resolve the month target
exactly as the claim states: operator month/total first, else department
month/total, else the sum of per-day effective targets (620 = 31 days of
the department per_day default 20), a zero sum reported as null. -/
theorem evaluate_monthly_missing_import_bug :
    evaluate_monthly dbMonthTot 7 ⟨2025, 8, 15⟩ "indicators_done"
      = .error .funcCalls ∧
    evaluate_monthly dbPeriod 7 ⟨2025, 8, 15⟩ "indicators_done"
      = .error .funcCalls ∧
    (evaluate_monthly_fixedImports dbMonthTot 7 ⟨2025, 8, 15⟩ "indicators_done").target
      = some 100 ∧
    (evaluate_monthly_fixedImports dbMonthTot 7 ⟨2025, 8, 15⟩ "indicators_done").source
      = some "operator/month_total" ∧
    (evaluate_monthly_fixedImports dbDeptTot 7 ⟨2025, 8, 15⟩ "indicators_done").target
      = some 90 ∧
    (evaluate_monthly_fixedImports dbDeptTot 7 ⟨2025, 8, 15⟩ "indicators_done").source
      = some "dept/month_total" ∧
    (evaluate_monthly_fixedImports dbResolver 7 ⟨2025, 8, 15⟩ "indicators_done").target
      = some 620 ∧
    (evaluate_monthly_fixedImports dbResolver 7 ⟨2025, 8, 15⟩ "indicators_done").source
      = none ∧
    (evaluate_monthly_fixedImports dbPeriod 7 ⟨2025, 8, 15⟩ "indicators_done").target
      = none ∧
    (evaluate_monthly_fixedImports dbPeriod 7 ⟨2025, 8, 15⟩ "indicators_done").actual
      = 5 ∧
    (evaluate_monthly_fixedImports dbPeriod 7 ⟨2025, 8, 15⟩ "indicators_done").status
      = "no_target" :=
  ⟨rfl, rfl, by decide, by decide, by decide, by decide, by decide, by decide,
   by decide, by decide, by decide⟩

end PlanTarget
